import Mathlib

set_option linter.unusedVariables false

/-!
Shallow embedding of `src/extract-articles.py` (ServiceNow-KB-Extractor).

Python values are modelled by `PyVal` (strings, ints, None, lists, dicts
as ordered association lists).  Python exceptions are modelled by `PyExc`
(`SystemExit` from `sys.exit`, `KeyError`, and a catch-all for
`AttributeError`/`TypeError`-style failures); fallible code returns
`Except PyExc`.  The remote HTTP API, the filesystem and stdout are
modelled explicitly: every request's outcome is a `Fetch` value supplied
in a context `Ctx`, and side effects accumulate in a trace of `Effect`s.
-/

/-- Model of a Python value as it appears in the script's JSON data. -/
inductive PyVal where
  | str (s : String)
  | int (n : Int)
  | none
  | list (vs : List PyVal)
  | dict (es : List (String × PyVal))

/-- Python truthiness (`bool(v)`): empty string, 0, None, empty list and
empty dict are falsy. -/
def pyTruthy : PyVal → Bool
  | .str s => !(s == "")
  | .int n => !(n == 0)
  | .none => false
  | .list vs => !vs.isEmpty
  | .dict es => !es.isEmpty

/-- Python `repr` of a value (strings come out quoted); element escaping
inside strings is not modelled (no claim depends on it). -/
def pyRepr : PyVal → String
  | .str s => "'" ++ s ++ "'"
  | .int n => toString n
  | .none => "None"
  | .list vs => "[" ++ String.intercalate ", " (vs.attach.map (fun x => pyRepr x.1)) ++ "]"
  | .dict es =>
      "\x7b" ++
        String.intercalate ", "
          (es.attach.map (fun x => "'" ++ x.1.1 ++ "': " ++ pyRepr x.1.2)) ++
      "\x7d"
decreasing_by
  all_goals simp_wf
  · have := List.sizeOf_lt_of_mem x.2
    omega
  · have h1 := List.sizeOf_lt_of_mem x.2
    have h2 : sizeOf x.1.2 < sizeOf x.1 := by
      obtain ⟨a, b⟩ := x.1
      simp only [Prod.mk.sizeOf_spec]
      omega
    omega

/-- Python `str(v)`: the string itself for strings, the numeral for
ints, `"None"` for None (all of which equal their `repr`), and `repr`
for containers. -/
def pyStr : PyVal → String
  | .str s => s
  | .int n => toString n
  | .none => "None"
  | v => pyRepr v

/-! ## Filename Sanitizer (`sanitize_filename`, lines 78-111)

String processing is modelled on `List Char`.  Python `str.split()` /
`str.strip()` split and strip on whitespace; the script's data is ASCII,
so whitespace is modelled by the six ASCII whitespace characters Python
recognises. -/

/-- The whitespace characters recognised by Python's `str.split()` /
`str.strip()` (restricted to ASCII). -/
def pyWSChars : List Char := [' ', '\t', '\n', '\x0d', '\x0b', '\x0c']

/-- Whether a character is (Python) whitespace. -/
def isPyWS (c : Char) : Bool := pyWSChars.contains c

/-- The invalid filename characters replaced by `sanitize_filename`
(line 88: `invalid_chars = '<>:"/\\|?*'`). -/
def invalidChars : List Char := ['<', '>', ':', '"', '/', '\\', '|', '?', '*']

/-- Whether a character is one of the invalid filename characters. -/
def isInvalid (c : Char) : Bool := invalidChars.contains c

/-- Whether a character is an underscore or dash (the `rstrip('_-')`
character set, lines 104 and 109). -/
def isUD (c : Char) : Bool := c == '_' || c == '-'

/-- Lines 89-90: replace each invalid character with an underscore. -/
def replaceInvalid (cs : List Char) : List Char :=
  cs.map (fun c => if isInvalid c then '_' else c)

/-- Python `str.split()` with no argument: split on runs of whitespace,
dropping empty pieces.  `acc` holds the current word reversed. -/
def pyWordsAux : List Char → List Char → List (List Char)
  | [], acc => if acc.isEmpty then [] else [acc.reverse]
  | c :: rest, acc =>
    if isPyWS c then
      if acc.isEmpty then pyWordsAux rest [] else acc.reverse :: pyWordsAux rest []
    else pyWordsAux rest (c :: acc)

/-- Python `str.split()` (whitespace words of a string). -/
def pyWords (cs : List Char) : List (List Char) := pyWordsAux cs []

/-- Python `' '.join(words)`. -/
def joinWords : List (List Char) → List Char
  | [] => []
  | [w] => w
  | w :: ws => w ++ ' ' :: joinWords ws

/-- Python `str.strip()` on a character list: drop whitespace from both
ends. -/
def pyStripL (cs : List Char) : List Char :=
  ((cs.dropWhile isPyWS).reverse.dropWhile isPyWS).reverse

/-- Python `str.rstrip('_-')`: drop trailing underscores and dashes. -/
def rstripUD (cs : List Char) : List Char :=
  (cs.reverse.dropWhile isUD).reverse

/-- Python `str.strip()` on a `String`. -/
def pyStripS (s : String) : String := String.mk (pyStripL s.toList)

/-- Lines 89-104 of `sanitize_filename`, composed outside-in: replace
invalid characters with underscores (89-90), `' '.join(.split())` (93),
`.strip()` (94), `.replace('\n', ' ')` (97), `.replace('\t', ' ')` (98),
`.replace(' ', '-')` (101), `.rstrip('_-')` (104). -/
def sanitizeCore (cs : List Char) : List Char :=
  rstripUD
    ((((pyStripL (joinWords (pyWords (replaceInvalid cs)))).map
        (fun c => if c == '\n' then ' ' else c)).map
        (fun c => if c == '\t' then ' ' else c)).map
        (fun c => if c == ' ' then '-' else c))

/-- The body of `sanitize_filename` for a truthy input (lines 87-111):
`sanitizeCore`, then if longer than 100 characters truncate and re-run
`.strip().rstrip('_-')` (lines 107-109). -/
def sanitizeList (cs : List Char) : List Char :=
  if 100 < (sanitizeCore cs).length then rstripUD (pyStripL ((sanitizeCore cs).take 100))
  else sanitizeCore cs

/-- `sanitize_filename` (lines 78-111).  An empty (falsy) input returns
the literal `"unnamed"` (lines 84-85). -/
def sanitize_filename (s : String) : String :=
  if s == "" then "unnamed" else String.mk (sanitizeList s.toList)

/-! ## Python exceptions and dictionary access -/

/-- The Python exceptions the script can raise or observe:
`SystemExit` (raised by `sys.exit`, *not* an `Exception` subclass),
`KeyError` (direct subscript of a missing key), and a catch-all for the
remaining `Exception` subclasses (`AttributeError`, `TypeError`, ...). -/
inductive PyExc where
  | systemExit (code : Int)
  | keyError (k : String)
  | otherErr
deriving DecidableEq

/-- Result of running a piece of Python code: a value or a raised
exception. -/
abbrev PyResult (α : Type) := Except PyExc α

/-- Python `v.get(k, d)`: defaulted lookup on a dict; calling `.get` on a
non-dict raises `AttributeError`. -/
def pyGet (v : PyVal) (k : String) (d : PyVal) : PyResult PyVal :=
  match v with
  | .dict es => .ok ((es.lookup k).getD d)
  | _ => .error .otherErr

/-- Python `v[k]`: subscript on a dict; a missing key raises `KeyError`,
subscripting a non-dict with a string key raises `TypeError`. -/
def pyIndex (v : PyVal) (k : String) : PyResult PyVal :=
  match v with
  | .dict es =>
    match es.lookup k with
    | some w => .ok w
    | Option.none => .error (.keyError k)
  | _ => .error (.keyError k)

/-- Python `for x in v`: iterating a list yields its elements, a string
its characters, a dict its keys; ints and None are not iterable. -/
def pyIter (v : PyVal) : PyResult (List PyVal) :=
  match v with
  | .list vs => .ok vs
  | .str s => .ok (s.toList.map (fun c => .str (String.mk [c])))
  | .dict es => .ok (es.map (fun e => .str e.1))
  | _ => .error .otherErr

/-- Python `.strip()` on a value that must be a string (raises
`AttributeError` otherwise). -/
def pyStripVal (v : PyVal) : PyResult String :=
  match v with
  | .str s => .ok (pyStripS s)
  | _ => .error .otherErr

/-- `sanitize_filename` applied to a raw record value: a falsy value
returns `"unnamed"` (line 84 `if not filename`), a truthy non-string
raises (`.replace` on a non-string), a string is sanitized. -/
def sanitize_filenameV (v : PyVal) : PyResult String :=
  if pyTruthy v then
    match v with
    | .str s => .ok (sanitize_filename s)
    | _ => .error .otherErr
  else .ok "unnamed"

/-! ## The remote API, side effects and the execution monad

Each HTTP request's outcome (the combined result of `requests.request`,
`raise_for_status()` and `.json()`, lines 55-57) is abstracted as a
`Fetch` value supplied by the context. -/

/-- Failure modes of one HTTP request, matching the handlers of
`make_request` (lines 58-76). -/
inductive FetchErr where
  | connErr
  | timeoutErr
  | httpErr (code : Nat)
  | reqErr
  | jsonErr
deriving DecidableEq

/-- Outcome of one HTTP request: parsed JSON or a failure. -/
inductive Fetch where
  | ok (v : PyVal)
  | err (e : FetchErr)

/-- Observable side effects of a run: directory creation, file writes and
printed lines. -/
inductive Effect where
  | mkdir (path : String)
  | writeFile (path : String) (content : String)
  | print (msg : String)
deriving DecidableEq

/-- The environment of a run: the outcome of each possible request, the
external `html2text` conversion primitive (a black box, spec section 1),
and the parsed `SERVICENOW_KNOWLEDGE_BASES` filter. -/
structure Ctx where
  kbList : Fetch
  catList : Fetch
  articlesFor : String → Fetch
  articleById : String → Fetch
  userById : String → Fetch
  h2t : String → String
  selected_kbs : List String

/-- Mutable world state of a run: the set of existing directories and the
accumulated effect trace. -/
structure St where
  dirs : List String
  effects : List Effect
deriving DecidableEq

/-- The execution monad: reads the context, threads the world state, and
either returns a value or raises a `PyExc` (effects performed before the
raise are kept). -/
def EM (α : Type) : Type := Ctx → St → PyResult α × St

/-- Monadic bind for `EM`: an exception short-circuits the continuation. -/
def emBind {α β : Type} (m : EM α) (f : α → EM β) : EM β := fun ctx st =>
  match m ctx st with
  | (.ok a, st') => f a ctx st'
  | (.error e, st') => (.error e, st')

/-- Monadic pure for `EM`. -/
def emPure {α : Type} (a : α) : EM α := fun _ st => (.ok a, st)

instance instMonadEM : Monad EM where
  pure := emPure
  bind := emBind

/-- Read the context. -/
def emCtx : EM Ctx := fun ctx st => (.ok ctx, st)

/-- Lift a pure Python result into the monad. -/
def liftE {α : Type} (r : PyResult α) : EM α := fun _ st => (r, st)

/-- Python `print(msg)`. -/
def emPrint (msg : String) : EM Unit := fun _ st =>
  (.ok (), { st with effects := st.effects ++ [.print msg] })

/-- Write a file (lines 238-239, `open(...).write(...)`). -/
def emWrite (path content : String) : EM Unit := fun _ st =>
  (.ok (), { st with effects := st.effects ++ [.writeFile path content] })

/-- `create_folder` (lines 113-119): `os.makedirs(path)` only when the
path does not already exist. -/
def create_folder (path : String) : EM Unit := fun _ st =>
  if st.dirs.contains path then (.ok (), st)
  else (.ok (), { dirs := path :: st.dirs, effects := st.effects ++ [.mkdir path] })

/-- Run `body` under Python `try: ... except KeyError as e:`; on a
`KeyError` print the warning built from the missing key and continue
(the other exceptions propagate). -/
def tryKeyError (body : EM Unit) (warn : String → String) : EM Unit := fun ctx st =>
  match body ctx st with
  | (.error (.keyError k), st') =>
      (.ok (), { st' with effects := st'.effects ++ [.print (warn k)] })
  | other => other

/-- Sequential `for` loop over a list. -/
def emForM {α : Type} (f : α → EM Unit) : List α → EM Unit
  | [] => emPure ()
  | x :: xs => emBind (f x) (fun _ => emForM f xs)

/-! ## HTTP layer (`make_request`, lines 42-76) and constants -/

/-- The instance URL (line 14); the concrete host is configuration, kept
abstract as a fixed string. -/
def instance_url : String := "https://instance"

/-- Line 27. -/
def kb_bases_endpoint : String := instance_url ++ "/api/now/table/kb_knowledge_base"

/-- Line 28. -/
def kb_categories_endpoint : String := instance_url ++ "/api/now/table/kb_category"

/-- Line 29. -/
def articles_endpoint : String := instance_url ++ "/api/now/table/kb_knowledge"

/-- Line 30. -/
def users_endpoint : String := instance_url ++ "/api/now/table/sys_user"

/-- Line 24: the output folder (the script dir component is
configuration, kept abstract). -/
def output_folder : String := "articles"

/-- The diagnostic lines `make_request` prints for each failure mode
(lines 58-76) before calling `sys.exit(1)`. -/
def errPrints (url : String) : FetchErr → List String
  | .connErr =>
      ["Error: Could not connect to " ++ instance_url ++
       ". Please check your internet connection and the instance URL."]
  | .timeoutErr => ["Error: Request to " ++ url ++ " timed out. Please try again."]
  | .httpErr code =>
      ["Error: HTTP request failed: " ++ toString code] ++
      (if code == 401 then ["Authentication failed. Please check your username and password."]
       else if code == 403 then ["Access forbidden. Please check your permissions."]
       else [])
  | .reqErr => ["Error: An unexpected error occurred"]
  | .jsonErr => ["Error: Received invalid JSON response from " ++ url]

/-- `make_request` (lines 42-76): return the parsed JSON on success; on
any connection/timeout/HTTP/request/JSON failure print a diagnostic and
call `sys.exit(1)` — modelled as raising `SystemExit 1`. -/
def make_requestM (url : String) (f : Fetch) : EM PyVal := fun _ st =>
  match f with
  | .ok v => (.ok v, st)
  | .err e =>
      (.error (.systemExit 1),
       { st with effects := st.effects ++ (errPrints url e).map .print })

/-! ## Author resolution (`get_user_details`, lines 135-153) -/

/-- The dictionary `get_user_details` returns (`name` and `sys_id`). -/
structure UserDetails where
  name : String
  sys_id : PyVal

/-- The `try` block of `get_user_details` (lines 144-151): fetch the user
record and assemble the display name (`first_name last_name` stripped,
or `"Unknown"` when both are missing/empty). -/
def userLookupBody (user_sys_id : PyVal) : EM UserDetails :=
  emBind emCtx (fun ctx =>
  emBind (make_requestM (users_endpoint ++ "/" ++ pyStr user_sys_id)
            (ctx.userById (pyStr user_sys_id))) (fun response =>
  liftE (do
    let user ← pyGet response "result" (.dict [])
    let fn ← pyGet user "first_name" (.str "")
    let ln ← pyGet user "last_name" (.str "")
    let nm := pyStripS (pyStr fn ++ " " ++ pyStr ln)
    pure ⟨if nm == "" then "Unknown" else nm, user_sys_id⟩)))

/-- `get_user_details` (lines 135-153).  A falsy id returns the fallback
with an empty `sys_id` (lines 141-142).  The `except Exception` handler
(lines 152-153) yields the fallback with the original id — but it does
*not* catch `SystemExit`, which `sys.exit(1)` inside `make_request`
raises, so request failures propagate. -/
def get_user_detailsM (user_sys_id : PyVal) : EM UserDetails := fun ctx st =>
  if pyTruthy user_sys_id then
    match userLookupBody user_sys_id ctx st with
    | (.ok d, st') => (.ok d, st')
    | (.error (.systemExit c), st') => (.error (.systemExit c), st')
    | (.error _, st') => (.ok ⟨"Unknown", user_sys_id⟩, st')
  else (.ok ⟨"Unknown", .str ""⟩, st)

/-! ## Metadata Composer (`format_article_markdown`, lines 155-221) -/

/-- Lines 163-165: title resolution — `short_description` if truthy else
`get('title', '')`, stripped, then whitespace runs collapsed to one
space. -/
def resolveTitleE (article_data : PyVal) : PyResult String := do
  let sd ← pyGet article_data "short_description" .none
  let tv ← if pyTruthy sd then pure sd else pyGet article_data "title" (.str "")
  let t ← pyStripVal tv
  pure (String.mk (joinWords (pyWords t.toList)))

/-- Line 168: `article_data.get('author', {}).get('value', '')`. -/
def authorRefE (article_data : PyVal) : PyResult PyVal := do
  let au ← pyGet article_data "author" (.dict [])
  pyGet au "value" (.str "")

/-- Lines 172-183: the ordered metadata fields before cleaning. -/
def mkMetadataRaw (article_data : PyVal) (title : String) (author : UserDetails) :
    PyResult (List (String × PyVal)) := do
  let created ← pyGet article_data "sys_created_on" (.str "")
  let updated ← pyGet article_data "sys_updated_on" (.str "")
  let views ← pyGet article_data "view_count" (.int 0)
  let rating ← pyGet article_data "rating" (.str "")
  let kbt ← pyGet article_data "kb_knowledge_base.title" (.str "")
  let cat ← pyGet article_data "kb_category.label" (.str "")
  let sid ← pyGet article_data "sys_id" (.str "")
  pure [("title", .str title), ("author", .str author.name),
        ("author_sys_id", author.sys_id), ("created_date", created),
        ("updated_date", updated), ("views", views), ("rating", rating),
        ("knowledge_base", kbt), ("category", cat), ("sys_id", sid)]

/-- Line 186: `{k: str(v).strip() for k, v in metadata.items() if v}` —
keep only truthy values, stringify and strip each. -/
def cleanMetadata (raw : List (String × PyVal)) : List (String × String) :=
  (raw.filter (fun kv => pyTruthy kv.2)).map (fun kv => (kv.1, pyStripS (pyStr kv.2)))

/-- Lines 189-192: the frontmatter lines (`---`, one `key: "value"` line
per retained field, `---`). -/
def renderFrontmatter (md : List (String × String)) : List String :=
  "---" :: md.map (fun kv => kv.1 ++ ": \"" ++ kv.2 ++ "\"") ++ ["---"]

/-- Whether a line is blank in the script's sense (`not line.strip()`). -/
def isBlankLine (l : String) : Bool := pyStripS l == ""

/-- Whether the first list begins with the second (character lists). -/
def listStarts : List Char → List Char → Bool
  | _, [] => true
  | [], _ :: _ => false
  | a :: as, b :: bs => a == b && listStarts as bs

/-- Python `s.startswith(pat)`. -/
def pyStartsWith (s pat : String) : Bool := listStarts s.toList pat.toList

/-- Python `s.split('\n')` accumulator (`acc` holds the current line
reversed); empty pieces are kept. -/
def splitLinesAux : List Char → List Char → List String
  | [], acc => [String.mk acc.reverse]
  | c :: rest, acc =>
    if c == '\n' then String.mk acc.reverse :: splitLinesAux rest []
    else splitLinesAux rest (c :: acc)

/-- Python `s.split('\n')` (line 195). -/
def splitLines (s : String) : List String := splitLinesAux s.toList []

/-- Lines 195-201: pop leading content lines while the first line is
blank, or starts with `'# ' + metadata['title']`, or equals
`metadata['title']`.  The blank test short-circuits; the title tests
subscript `metadata['title']` and raise `KeyError` when the `title` key
was cleaned away. -/
def dropTitleLoop (metadata : List (String × String)) : List String → PyResult (List String)
  | [] => .ok []
  | l :: rest =>
    if pyStripS l == "" then dropTitleLoop metadata rest
    else
      match metadata.lookup "title" with
      | Option.none => .error (.keyError "title")
      | some t =>
        if pyStartsWith (pyStripS l) ("# " ++ t) || pyStripS l == t then
          dropTitleLoop metadata rest
        else .ok (l :: rest)

/-- Lines 203-210: collapse consecutive blank lines; `prevBlank` is the
`prev_blank` flag. -/
def collapseAux (prevBlank : Bool) : List String → List String
  | [] => []
  | l :: rest =>
    if isBlankLine l && prevBlank then collapseAux (isBlankLine l) rest
    else l :: collapseAux (isBlankLine l) rest

/-- The blank-line collapsing pass (`prev_blank` starts `False`). -/
def collapseBlanks (ls : List String) : List String := collapseAux false ls

/-- Line 216's `metadata["title"]` subscript. -/
def lookupTitleE (metadata : List (String × String)) : PyResult String :=
  match metadata.lookup "title" with
  | some t => .ok t
  | Option.none => .error (.keyError "title")

/-- `format_article_markdown` (lines 155-221): resolve the title and
author, build and clean the metadata, strip a duplicate leading title,
collapse blank lines and assemble the full document. -/
def format_article_markdown (article_data : PyVal) (markdown_content : String)
    (file_path : String) : EM String :=
  emBind (liftE (resolveTitleE article_data)) (fun title =>
  emBind (liftE (authorRefE article_data)) (fun author_sys_id =>
  emBind (get_user_detailsM author_sys_id) (fun author_details =>
  emBind (liftE (mkMetadataRaw article_data title author_details)) (fun raw =>
  let metadata := cleanMetadata raw
  emBind (liftE (dropTitleLoop metadata (splitLines markdown_content))) (fun content_lines =>
  let cleaned_content := collapseBlanks content_lines
  emBind (liftE (lookupTitleE metadata)) (fun t2 =>
  emPure (String.intercalate "\n"
    [String.intercalate "\n" (renderFrontmatter metadata), "",
     "# " ++ t2, "", pyStripS (String.intercalate "\n" cleaned_content)])))))))

/-! ## Export Driver (`main` and helpers, lines 113-343) -/

/-- A value `h.handle` can accept (must be a string). -/
def asStrE : PyVal → PyResult String
  | .str s => .ok s
  | _ => .error .otherErr

/-- `convert_html_to_markdown` (lines 121-133): delegate to the external
`html2text` primitive (the black box `ctx.h2t`) and strip the result. -/
def convert_html_to_markdown (html_content : String) : EM String :=
  emBind emCtx (fun ctx => emPure (pyStripS (ctx.h2t html_content)))

/-- `print_article_content` (lines 223-239): convert the body, format the
full document and write it to `file_path`. -/
def print_article_content (original_title sanitized_title : String)
    (article_data : PyVal) (file_path : String) : EM Unit :=
  emBind (liftE (pyGet article_data "text" (.str ""))) (fun tv =>
  emBind (liftE (asStrE tv)) (fun html =>
  emBind (convert_html_to_markdown html) (fun markdown_content =>
  emBind (format_article_markdown article_data markdown_content file_path) (fun full =>
  emWrite file_path full))))

/-- Lines 310-320: pick the save folder and display location from the
category lookup (`if category_id and category_id in categories`),
creating the category folder when needed. -/
def articleDest (kb_title kb_folder : String) (categories : List (String × PyVal))
    (category_id : String) : EM (String × String) :=
  if category_id == "" then emPure (kb_folder, kb_title)
  else
    match categories.lookup category_id with
    | Option.none => emPure (kb_folder, kb_title)
    | some category =>
      emBind (liftE (pyGet category "label" (.str "Unnamed_Category"))) (fun lv =>
      emBind (liftE (sanitize_filenameV lv)) (fun category_title =>
      emBind (create_folder (kb_folder ++ "/" ++ category_title)) (fun _ =>
      emPure (kb_folder ++ "/" ++ category_title, kb_title ++ "/" ++ category_title))))

/-- The `try` body of the per-article loop (lines 291-326).  An article
whose record has no truthy `sys_id` is skipped by a bare `continue`
(lines 293-295) — with no message printed. -/
def articleBody (kb_title kb_folder : String) (categories : List (String × PyVal))
    (article : PyVal) : EM Unit :=
  emBind (liftE (pyGet article "sys_id" .none)) (fun article_id =>
  if pyTruthy article_id then
    emBind emCtx (fun ctx =>
    emBind (make_requestM (instance_url ++ "/api/now/table/kb_knowledge/" ++ pyStr article_id)
              (ctx.articleById (pyStr article_id))) (fun article_response =>
    emBind (liftE (pyIndex article_response "result")) (fun article_data =>
    emBind (liftE (do
      let sd ← pyGet article_data "short_description" .none
      let tv ← if pyTruthy sd then pure sd
               else pyGet article_data "title" (.str ("Unnamed Article " ++ pyStr article_id))
      pyStripVal tv)) (fun original_title =>
    let article_title := sanitize_filename original_title
    emBind (liftE (pyGet article_data "kb_category" (.str ""))) (fun kbcat =>
    let category_id := pyStr kbcat
    emBind (articleDest kb_title kb_folder categories category_id) (fun dest =>
    emBind (emPrint ("→ " ++ dest.2 ++ "/" ++ article_title ++ ".mdx")) (fun _ =>
    print_article_content original_title article_title article_data
      (dest.1 ++ "/" ++ article_title ++ ".md"))))))))
  else emPure ())

/-- One iteration of the article loop with its `except KeyError` handler
(lines 290-329). -/
def processArticle (kb_title kb_folder : String) (categories : List (String × PyVal))
    (article : PyVal) : EM Unit :=
  tryKeyError (articleBody kb_title kb_folder categories article)
    (fun k => "  Warning: Skipping article due to missing data: '" ++ k ++ "'")

/-- The `try` body of the per-knowledge-base loop (lines 270-329). -/
def kbBody (categories : List (String × PyVal)) (kb : PyVal) : EM Unit :=
  emBind (liftE (pyGet kb "title" (.str "Unnamed Knowledge Base"))) (fun tv =>
  emBind (liftE (sanitize_filenameV tv)) (fun kb_title =>
  let kb_folder := output_folder ++ "/" ++ kb_title
  emBind (create_folder kb_folder) (fun _ =>
  emBind (emPrint ("\nProcessing knowledge base: " ++ kb_title)) (fun _ =>
  emBind (emPrint (String.mk (List.replicate (kb_title.length + 24) '-'))) (fun _ =>
  emBind (liftE (pyIndex kb "sys_id")) (fun sid =>
  emBind emCtx (fun ctx =>
  emBind (make_requestM articles_endpoint (ctx.articlesFor (pyStr sid))) (fun articles_response =>
  emBind (liftE (pyGet articles_response "result" (.list []))) (fun articles_v =>
  if pyTruthy articles_v then
    emBind (liftE (pyIter articles_v)) (fun articles =>
    emForM (processArticle kb_title kb_folder categories) articles)
  else emPrint ("No articles found in knowledge base: " ++ kb_title))))))))))

/-- One iteration of the knowledge-base loop with its `except KeyError`
handler (lines 269-333). -/
def processKB (categories : List (String × PyVal)) (kb : PyVal) : EM Unit :=
  tryKeyError (kbBody categories kb)
    (fun k => "Warning: Error processing knowledge base: '" ++ k ++ "'")

/-- Line 266: `{str(cat['sys_id']): cat for cat in result}` — the
category lookup, built with *direct* subscripting: a record with no
`sys_id` key raises `KeyError` out of the comprehension.  (Python's
dict keeps the last duplicate key, this association list the first; no
claim involves duplicate sys_ids.) -/
def buildCategories : List PyVal → PyResult (List (String × PyVal))
  | [] => .ok []
  | c :: rest => do
    let sid ← pyIndex c "sys_id"
    let rest' ← buildCategories rest
    pure ((pyStr sid, c) :: rest')

/-- Line 259: `[kb for kb in knowledge_bases if kb.get('title', '').strip() in selected_kbs]`. -/
def filterKBs (sel : List String) : List PyVal → PyResult (List PyVal)
  | [] => .ok []
  | kb :: rest => do
    let tv ← pyGet kb "title" (.str "")
    let ts ← pyStripVal tv
    let rest' ← filterKBs sel rest
    pure (if sel.contains ts then kb :: rest' else rest')

/-- The `try` body of `main` (lines 243-336).  The inner `Option`
encodes the two early `return`s of the empty / filtered-empty cases. -/
def mainBody : EM Unit :=
  emBind (create_folder output_folder) (fun _ =>
  emBind (emPrint "Starting knowledge base export...") (fun _ =>
  emBind (emPrint "\nFetching knowledge bases and categories...") (fun _ =>
  emBind emCtx (fun ctx =>
  emBind (make_requestM kb_bases_endpoint ctx.kbList) (fun kb_response =>
  emBind (liftE (pyGet kb_response "result" (.list []))) (fun kbs_v =>
  if pyTruthy kbs_v then
    emBind (liftE (pyIter kbs_v)) (fun kbs0 =>
    emBind (if ctx.selected_kbs.isEmpty then emPure (some kbs0)
            else
              emBind (emPrint ("Filtering knowledge bases: " ++
                        String.intercalate ", " ctx.selected_kbs)) (fun _ =>
              emBind (liftE (filterKBs ctx.selected_kbs kbs0)) (fun kbs1 =>
              if kbs1.isEmpty then
                emBind (emPrint "Warning: No matching knowledge bases found")
                  (fun _ => emPure Option.none)
              else emPure (some kbs1))))
      (fun kept =>
      match kept with
      | Option.none => emPure ()
      | some knowledge_bases =>
        emBind (make_requestM kb_categories_endpoint ctx.catList) (fun cat_response =>
        emBind (liftE (do
          let rv ← pyGet cat_response "result" (.list [])
          let recs ← pyIter rv
          buildCategories recs)) (fun categories =>
        emBind (emForM (processKB categories) knowledge_bases) (fun _ =>
        emBind (emPrint "\n✓ Knowledge base export completed successfully!") (fun _ =>
        emPrint ("  Articles saved to: " ++ output_folder)))))))
  else emPrint "Warning: No knowledge bases found"))))))

/-- `main` with its top-level handler (lines 241-343): `except Exception`
prints a diagnostic and exits 1; `SystemExit` is not an `Exception`, so
it passes through and the interpreter exits with its code.  Returns the
effect trace and the process exit status. -/
def mainRun (ctx : Ctx) (dirs0 : List String) : List Effect × Int :=
  match mainBody ctx ⟨dirs0, []⟩ with
  | (.ok _, st) => (st.effects, 0)
  | (.error (.systemExit c), st) => (st.effects, c)
  | (.error (.keyError k), st) =>
      (st.effects ++ [.print ("\n✗ Error: An unexpected error occurred: '" ++ k ++ "'")], 1)
  | (.error .otherErr, st) =>
      (st.effects ++ [.print "\n✗ Error: An unexpected error occurred"], 1)

/-! ## Definitions used by the claim statements -/

/-- A character the sanitizer's output may contain everywhere: neither an
invalid filename character nor whitespace. -/
def sanitaryChar (c : Char) : Bool := !(isInvalid c) && !(isPyWS c)

/-- Whether a line list has no two consecutive blank lines. -/
def noTwoBlanks : List String → Bool
  | [] => true
  | [_] => true
  | a :: b :: rest => !(isBlankLine a && isBlankLine b) && noTwoBlanks (b :: rest)

/-- The leading-line predicate of the duplicate-title strip (lines
196-199): blank, or starting with `'# ' + title`, or equal to the
title (all on the stripped line). -/
def dropPred (t : String) (l : String) : Bool :=
  (pyStripS l == "") || pyStartsWith (pyStripS l) ("# " ++ t) || (pyStripS l == t)

/-- A value the claim C6 counts as "non-empty/present": per its words the
integer default 0 counts as present (it is "retained as a non-empty
stringified value"), empty strings and absent (None) values do not. -/
def specKeepC6 : PyVal → Bool
  | .str s => !(s == "")
  | .int _ => true
  | .none => false
  | .list vs => !vs.isEmpty
  | .dict es => !es.isEmpty

/-- The Metadata Composer cleaning step as claim C6 words it: keep
exactly the non-empty/present fields, in order, each stringified and
trimmed. -/
def composeSpecC6 (raw : List (String × PyVal)) : List (String × String) :=
  raw.filterMap (fun kv =>
    if specKeepC6 kv.2 then some (kv.1, pyStripS (pyStr kv.2)) else Option.none)

/-- The cleaning step as the amended claim words it: keep exactly the
fields whose source value is truthy under Python truthiness (so the
integer default 0 for `views` is dropped), in order, each stringified
and trimmed. -/
def composeAmendedC6 (raw : List (String × PyVal)) : List (String × String) :=
  raw.filterMap (fun kv =>
    if pyTruthy kv.2 then some (kv.1, pyStripS (pyStr kv.2)) else Option.none)

/-! ## Concrete scenarios used by counterexamples and witnesses -/

/-- A knowledge base record. -/
def kbHR : PyVal := .dict [("sys_id", .str "kb1"), ("title", .str "HR")]

/-- A full article record whose user reference is `u1`. -/
def artFull : PyVal := .dict
  [("sys_id", .str "a1"), ("short_description", .str "Leave Policy"),
   ("author", .dict [("value", .str "u1")]),
   ("text", .str "<p>Leave Policy</p><p>Text</p>")]

/-- A successful user-record response. -/
def userRec : PyVal := .dict
  [("result", .dict [("first_name", .str "A"), ("last_name", .str "B")])]

/-- A context in which every request succeeds, the knowledge base `HR`
has one article `a1`, there are no categories, and no filter is set. -/
def ctxBase : Ctx :=
  { kbList := .ok (.dict [("result", .list [kbHR])])
    catList := .ok (.dict [("result", .list [])])
    articlesFor := fun _ => .ok (.dict [("result", .list [artFull])])
    articleById := fun _ => .ok (.dict [("result", artFull)])
    userById := fun _ => .ok userRec
    h2t := fun _ => "Leave Policy\n\nText"
    selected_kbs := [] }

/-- `ctxBase`, but the knowledge-base list comes back empty. -/
def ctxNoKBs : Ctx := { ctxBase with kbList := .ok (.dict [("result", .list [])]) }

/-- `ctxBase`, but every user lookup fails with an HTTP 500. -/
def ctxUserFail : Ctx := { ctxBase with userById := fun _ => .err (.httpErr 500) }

/-- `ctxBase`, but the category list contains a record with no `sys_id`
key. -/
def ctxBadCat : Ctx :=
  { ctxBase with catList := .ok (.dict [("result", .list [.dict [("label", .str "x")]])]) }

/-- `ctxBase`, but the article list starts with a record that has no
`sys_id`, followed by the good article. -/
def ctxBadArt : Ctx :=
  { ctxBase with
    articlesFor := fun _ => .ok (.dict [("result", .list [.dict [("title", .str "no id")], artFull])]) }

/-- The ordered field list that `mkMetadataRaw` produces on a dict
article record (each `.get` with its line-172-182 default). -/
def rawFields (es : List (String × PyVal)) (t : String) (d : UserDetails) :
    List (String × PyVal) :=
  [("title", .str t), ("author", .str d.name), ("author_sys_id", d.sys_id),
   ("created_date", (es.lookup "sys_created_on").getD (.str "")),
   ("updated_date", (es.lookup "sys_updated_on").getD (.str "")),
   ("views", (es.lookup "view_count").getD (.int 0)),
   ("rating", (es.lookup "rating").getD (.str "")),
   ("knowledge_base", (es.lookup "kb_knowledge_base.title").getD (.str "")),
   ("category", (es.lookup "kb_category.label").getD (.str "")),
   ("sys_id", (es.lookup "sys_id").getD (.str ""))]

/-! ## Helper lemmas: dropWhile, strips -/

theorem dropWhile_of_false {α} {p : α → Bool} {l : List α} (h : ∀ c ∈ l, p c = false) :
    l.dropWhile p = l := by
  induction l with
  | nil => rfl
  | cons a t ih =>
    simp [List.dropWhile_cons, h a (by simp), ih fun c hc => h c (by simp [hc])]

theorem head?_dropWhile_false {α} {p : α → Bool} {l : List α} {a : α}
    (h : (l.dropWhile p).head? = some a) : p a = false := by
  induction l with
  | nil => simp at h
  | cons b t ih =>
    rw [List.dropWhile_cons] at h
    by_cases hb : p b
    · rw [if_pos hb] at h
      exact ih h
    · rw [if_neg hb] at h
      simp only [List.head?_cons, Option.some.injEq] at h
      subst h
      exact Bool.eq_false_iff.mpr hb

theorem dropWhile_idem {α} {p : α → Bool} (l : List α) :
    (l.dropWhile p).dropWhile p = l.dropWhile p := by
  cases hd : l.dropWhile p with
  | nil => rfl
  | cons a t =>
    have ha : p a = false := head?_dropWhile_false (by rw [hd]; rfl)
    simp [List.dropWhile_cons, ha]

theorem mem_of_mem_dropWhile {α} {p : α → Bool} {l : List α} {a : α}
    (h : a ∈ l.dropWhile p) : a ∈ l := (List.dropWhile_sublist p).subset h

theorem mem_of_mem_pyStripL {cs : List Char} {c : Char} (h : c ∈ pyStripL cs) : c ∈ cs := by
  unfold pyStripL at h
  rw [List.mem_reverse] at h
  have := mem_of_mem_dropWhile h
  rw [List.mem_reverse] at this
  exact mem_of_mem_dropWhile this

theorem mem_of_mem_rstripUD {cs : List Char} {c : Char} (h : c ∈ rstripUD cs) : c ∈ cs := by
  unfold rstripUD at h
  rw [List.mem_reverse] at h
  have := mem_of_mem_dropWhile h
  rwa [List.mem_reverse] at this

theorem pyStripL_len_le (cs : List Char) : (pyStripL cs).length ≤ cs.length := by
  unfold pyStripL
  calc ((cs.dropWhile isPyWS).reverse.dropWhile isPyWS).reverse.length
      = ((cs.dropWhile isPyWS).reverse.dropWhile isPyWS).length := by simp
    _ ≤ (cs.dropWhile isPyWS).reverse.length := (List.dropWhile_sublist _).length_le
    _ = (cs.dropWhile isPyWS).length := by simp
    _ ≤ cs.length := (List.dropWhile_sublist _).length_le

theorem rstripUD_len_le (cs : List Char) : (rstripUD cs).length ≤ cs.length := by
  unfold rstripUD
  calc (cs.reverse.dropWhile isUD).reverse.length
      = (cs.reverse.dropWhile isUD).length := by simp
    _ ≤ cs.reverse.length := (List.dropWhile_sublist _).length_le
    _ = cs.length := by simp

theorem rstripUD_idem (cs : List Char) : rstripUD (rstripUD cs) = rstripUD cs := by
  unfold rstripUD
  rw [List.reverse_reverse, dropWhile_idem]

theorem rstripUD_of_false {cs : List Char} (h : ∀ c, cs.reverse.head? = some c → isUD c = false) :
    rstripUD cs = cs := by
  unfold rstripUD
  cases hr : cs.reverse with
  | nil => simpa using congrArg List.reverse hr
  | cons a t =>
    rw [List.dropWhile_cons, h a (by rw [hr]; rfl)]
    have h2 := congrArg List.reverse hr
    simp only [List.reverse_reverse] at h2
    simp [h2]

/-! ## pyWords and joinWords lemmas -/

theorem pyWordsAux_words {cs : List Char} : ∀ {acc : List Char},
    (∀ c ∈ acc, isPyWS c = false) →
    ∀ w ∈ pyWordsAux cs acc, w ≠ [] ∧ ∀ c ∈ w, isPyWS c = false := by
  induction cs with
  | nil =>
    intro acc hacc w hw
    unfold pyWordsAux at hw
    by_cases he : acc.isEmpty
    · simp [he] at hw
    · simp [he] at hw
      subst hw
      constructor
      · simpa [List.isEmpty_iff] using he
      · intro c hc
        exact hacc c (by simpa using hc)
  | cons a t ih =>
    intro acc hacc w hw
    unfold pyWordsAux at hw
    by_cases hws : isPyWS a
    · rw [if_pos hws] at hw
      by_cases he : acc.isEmpty
      · rw [if_pos he] at hw
        exact ih (by simp) w hw
      · rw [if_neg he] at hw
        rcases List.mem_cons.mp hw with h1 | h2
        · subst h1
          constructor
          · simpa [List.isEmpty_iff] using he
          · intro c hc
            exact hacc c (by simpa using hc)
        · exact ih (by simp) w h2
    · rw [if_neg hws] at hw
      refine ih ?_ w hw
      intro c hc
      rcases List.mem_cons.mp hc with h1 | h2
      · subst h1
        exact Bool.eq_false_iff.mpr hws
      · exact hacc c h2

theorem pyWordsAux_mem {cs : List Char} : ∀ {acc : List Char},
    ∀ w ∈ pyWordsAux cs acc, ∀ c ∈ w, c ∈ cs ∨ c ∈ acc := by
  induction cs with
  | nil =>
    intro acc w hw c hc
    unfold pyWordsAux at hw
    by_cases he : acc.isEmpty
    · simp [he] at hw
    · simp [he] at hw
      subst hw
      right
      simpa using hc
  | cons a t ih =>
    intro acc w hw c hc
    unfold pyWordsAux at hw
    by_cases hws : isPyWS a
    · rw [if_pos hws] at hw
      by_cases he : acc.isEmpty
      · rw [if_pos he] at hw
        rcases ih w hw c hc with h | h
        · exact Or.inl (by simp [h])
        · simp at h
      · rw [if_neg he] at hw
        rcases List.mem_cons.mp hw with h1 | h2
        · subst h1
          right
          simpa using hc
        · rcases ih w h2 c hc with h | h
          · exact Or.inl (by simp [h])
          · simp at h
    · rw [if_neg hws] at hw
      rcases ih w hw c hc with h | h
      · exact Or.inl (by simp [h])
      · rcases List.mem_cons.mp h with h1 | h2
        · exact Or.inl (by simp [h1])
        · exact Or.inr h2

theorem joinWords_mem {ws : List (List Char)} {c : Char} (h : c ∈ joinWords ws) :
    c = ' ' ∨ ∃ w ∈ ws, c ∈ w := by
  induction ws with
  | nil => simp [joinWords] at h
  | cons w rest ih =>
    cases rest with
    | nil =>
      right
      exact ⟨w, by simp, by simpa [joinWords] using h⟩
    | cons w2 rest2 =>
      have hj : joinWords (w :: w2 :: rest2) = w ++ ' ' :: joinWords (w2 :: rest2) := rfl
      rw [hj, List.mem_append] at h
      rcases h with h | h
      · exact Or.inr ⟨w, by simp, h⟩
      · rcases List.mem_cons.mp h with h1 | h2
        · exact Or.inl h1
        · rcases ih h2 with h3 | ⟨w3, hw3, hc3⟩
          · exact Or.inl h3
          · exact Or.inr ⟨w3, by simp [hw3], hc3⟩

theorem pyWordsAux_clean {cs : List Char} : ∀ {acc : List Char},
    (∀ c ∈ cs, isPyWS c = false) →
    pyWordsAux cs acc = if (acc.reverse ++ cs).isEmpty then [] else [acc.reverse ++ cs] := by
  induction cs with
  | nil =>
    intro acc _
    unfold pyWordsAux
    by_cases he : acc.isEmpty
    · simp [List.isEmpty_iff.mp he]
    · have : acc ≠ [] := by simpa [List.isEmpty_iff] using he
      simp [he, List.isEmpty_iff, this]
  | cons a t ih =>
    intro acc hcs
    unfold pyWordsAux
    rw [if_neg (by simp [hcs a (by simp)])]
    rw [ih (fun c hc => hcs c (by simp [hc]))]
    simp

theorem pyWords_clean {cs : List Char} (h : ∀ c ∈ cs, isPyWS c = false) (hne : cs ≠ []) :
    pyWords cs = [cs] := by
  unfold pyWords
  rw [pyWordsAux_clean h]
  simp [List.isEmpty_iff, hne]

/-! ## Characterization of sanitizeCore -/

theorem map_id_of_eq {f : Char → Char} {cs : List Char} (h : ∀ c ∈ cs, f c = c) :
    cs.map f = cs := by
  induction cs with
  | nil => rfl
  | cons a t ih => simp [h a (by simp), ih fun c hc => h c (by simp [hc])]

theorem replaceInvalid_chars (cs : List Char) : ∀ c ∈ replaceInvalid cs, isInvalid c = false := by
  intro c hc
  unfold replaceInvalid at hc
  rcases List.mem_map.mp hc with ⟨d, _, hd⟩
  by_cases hi : isInvalid d
  · rw [if_pos hi] at hd
    rw [← hd]
    decide
  · rw [if_neg hi] at hd
    rw [← hd]
    exact Bool.eq_false_iff.mpr hi

theorem joined_chars {cs : List Char} (h : ∀ c ∈ cs, isInvalid c = false) :
    ∀ c ∈ joinWords (pyWords cs), isInvalid c = false ∧ (isPyWS c = true → c = ' ') := by
  intro c hc
  rcases joinWords_mem hc with hsp | ⟨w, hw, hcw⟩
  · subst hsp
    exact ⟨by decide, fun _ => rfl⟩
  · have hword := @pyWordsAux_words cs [] (by simp) w hw
    have hmem := @pyWordsAux_mem cs [] w hw c hcw
    rcases hmem with hm | hm
    · exact ⟨h c hm, fun hws => absurd hws (by simp [hword.2 c hcw])⟩
    · simp at hm

theorem sanitizeCore_chars (cs : List Char) : ∀ c ∈ sanitizeCore cs, sanitaryChar c = true := by
  intro c hc
  unfold sanitizeCore at hc
  have hc2 := mem_of_mem_rstripUD hc
  rcases List.mem_map.mp hc2 with ⟨d2, hd2, hf3⟩
  rcases List.mem_map.mp hd2 with ⟨d1, hd1, hf2⟩
  rcases List.mem_map.mp hd1 with ⟨d0, hd0, hf1⟩
  have hd0m := mem_of_mem_pyStripL hd0
  have hj := joined_chars (replaceInvalid_chars cs) d0 hd0m
  by_cases hws : isPyWS d0
  · -- d0 is whitespace, hence a space; it maps to a dash
    have : d0 = ' ' := hj.2 hws
    subst this
    have e1 : d1 = ' ' := by rw [← hf1]; decide
    have e2 : d2 = ' ' := by rw [← hf2, e1]; decide
    have e3 : c = '-' := by rw [← hf3, e2]; decide
    rw [e3]
    decide
  · -- d0 is not whitespace, so the three replaces leave it unchanged
    have hn : d0 ≠ '\n' := fun he => hws (by rw [he]; decide)
    have ht : d0 ≠ '\t' := fun he => hws (by rw [he]; decide)
    have hs : d0 ≠ ' ' := fun he => hws (by rw [he]; decide)
    have e1 : d1 = d0 := by
      rw [← hf1, if_neg (by simpa using hn)]
    have e2 : d2 = d0 := by
      rw [← hf2, e1, if_neg (by simpa using ht)]
    have e3 : c = d0 := by
      rw [← hf3, e2, if_neg (by simpa using hs)]
    rw [e3]
    unfold sanitaryChar
    simp [hj.1, Bool.eq_false_iff.mpr hws]

theorem sanitizeList_chars (cs : List Char) : ∀ c ∈ sanitizeList cs, sanitaryChar c = true := by
  intro c hc
  unfold sanitizeList at hc
  split_ifs at hc
  · have h1 := mem_of_mem_rstripUD hc
    have h2 := mem_of_mem_pyStripL h1
    exact sanitizeCore_chars cs c ((List.take_sublist 100 _).subset h2)
  · exact sanitizeCore_chars cs c hc

theorem sanitizeList_rstrip (cs : List Char) : rstripUD (sanitizeList cs) = sanitizeList cs := by
  unfold sanitizeList
  split_ifs
  · exact rstripUD_idem _
  · unfold sanitizeCore
    exact rstripUD_idem _

theorem sanitizeList_len (cs : List Char) : (sanitizeList cs).length ≤ 100 := by
  unfold sanitizeList
  split_ifs with h
  · calc (rstripUD (pyStripL ((sanitizeCore cs).take 100))).length
        ≤ (pyStripL ((sanitizeCore cs).take 100)).length := rstripUD_len_le _
      _ ≤ ((sanitizeCore cs).take 100).length := pyStripL_len_le _
      _ ≤ 100 := by simp
  · omega

/-! ## Idempotence machinery for the sanitizer -/

theorem pyStripL_of_clean {cs : List Char} (h : ∀ c ∈ cs, isPyWS c = false) :
    pyStripL cs = cs := by
  unfold pyStripL
  rw [dropWhile_of_false h,
      dropWhile_of_false (fun c hc => h c (List.mem_reverse.mp hc)),
      List.reverse_reverse]

theorem mk_ne_empty {l : List Char} (h : l ≠ []) : (String.mk l == "") = false := by
  refine Bool.eq_false_iff.mpr fun hb => ?_
  rw [beq_iff_eq] at hb
  exact h (congrArg String.toList hb)

theorem sanitizeCore_fix {cs : List Char}
    (h1 : ∀ c ∈ cs, sanitaryChar c = true) (h2 : rstripUD cs = cs) (h4 : cs ≠ []) :
    sanitizeCore cs = cs := by
  have hNoWS : ∀ c ∈ cs, isPyWS c = false := by
    intro c hc
    have := h1 c hc
    unfold sanitaryChar at this
    simp only [Bool.and_eq_true, Bool.not_eq_true'] at this
    exact this.2
  have hNoInv : ∀ c ∈ cs, isInvalid c = false := by
    intro c hc
    have := h1 c hc
    unfold sanitaryChar at this
    simp only [Bool.and_eq_true, Bool.not_eq_true'] at this
    exact this.1
  have hri : replaceInvalid cs = cs :=
    map_id_of_eq (fun c hc => by rw [if_neg (by simp [hNoInv c hc])])
  have hm1 : cs.map (fun c => if c == '\n' then ' ' else c) = cs := by
    refine map_id_of_eq fun c hc => ?_
    have hw := hNoWS c hc
    refine if_neg fun hb => ?_
    rw [beq_iff_eq] at hb
    subst hb
    exact absurd hw (by decide)
  have hm2 : cs.map (fun c => if c == '\t' then ' ' else c) = cs := by
    refine map_id_of_eq fun c hc => ?_
    have hw := hNoWS c hc
    refine if_neg fun hb => ?_
    rw [beq_iff_eq] at hb
    subst hb
    exact absurd hw (by decide)
  have hm3 : cs.map (fun c => if c == ' ' then '-' else c) = cs := by
    refine map_id_of_eq fun c hc => ?_
    have hw := hNoWS c hc
    refine if_neg fun hb => ?_
    rw [beq_iff_eq] at hb
    subst hb
    exact absurd hw (by decide)
  unfold sanitizeCore
  rw [hri, pyWords_clean hNoWS h4]
  have hj : joinWords [cs] = cs := rfl
  rw [hj, pyStripL_of_clean hNoWS, hm1, hm2, hm3, h2]

theorem sanitizeList_fix {cs : List Char}
    (h1 : ∀ c ∈ cs, sanitaryChar c = true) (h2 : rstripUD cs = cs)
    (h3 : cs.length ≤ 100) (h4 : cs ≠ []) :
    sanitizeList cs = cs := by
  unfold sanitizeList
  rw [sanitizeCore_fix h1 h2 h4, if_neg (by omega)]

theorem mkToList (l : List Char) : (String.mk l).toList = l := rfl

theorem mkLength (l : List Char) : (String.mk l).length = l.length := rfl

theorem sanitize_filename_sanitary (s : String) :
    ((sanitize_filename s).toList.all sanitaryChar = true)
    ∧ rstripUD (sanitize_filename s).toList = (sanitize_filename s).toList
    ∧ (sanitize_filename s).length ≤ 100 := by
  by_cases hs : (s == "") = true
  · have hu : sanitize_filename s = "unnamed" := by
      unfold sanitize_filename
      rw [if_pos hs]
    rw [hu]
    exact ⟨by decide, by decide, by decide⟩
  · have hval : sanitize_filename s = String.mk (sanitizeList s.toList) := by
      unfold sanitize_filename
      rw [if_neg hs]
    rw [hval, mkToList, mkLength]
    refine ⟨?_, ?_, ?_⟩
    · rw [List.all_eq_true]
      intro c hc
      exact sanitizeList_chars s.toList c hc
    · exact sanitizeList_rstrip s.toList
    · exact sanitizeList_len s.toList

theorem sanitize_filename_not_nonempty :
    sanitize_filename "_" = "" ∧ sanitize_filename "_a" = "_a" :=
  ⟨by decide, by decide⟩

theorem sanitize_filename_idem (s : String) (h : sanitize_filename s ≠ "") :
    sanitize_filename (sanitize_filename s) = sanitize_filename s := by
  by_cases hs : (s == "") = true
  · have hu : sanitize_filename s = "unnamed" := by
      unfold sanitize_filename
      rw [if_pos hs]
    rw [hu]
    decide
  · have hval : sanitize_filename s = String.mk (sanitizeList s.toList) := by
      unfold sanitize_filename
      rw [if_neg hs]
    have hne : sanitizeList s.toList ≠ [] := by
      intro hemp
      exact h (by rw [hval, hemp])
    rw [hval]
    unfold sanitize_filename
    rw [if_neg (by rw [mk_ne_empty hne]; exact Bool.false_ne_true), mkToList]
    exact congrArg String.mk
      (sanitizeList_fix (fun c hc => sanitizeList_chars s.toList c hc)
        (sanitizeList_rstrip s.toList) (sanitizeList_len s.toList) hne)

theorem sanitize_filename_idem_witness :
    sanitize_filename (sanitize_filename "A/B:C") = sanitize_filename "A/B:C" :=
  sanitize_filename_idem "A/B:C" (by decide)

theorem sanitize_filename_not_idem :
    sanitize_filename (sanitize_filename "_") ≠ sanitize_filename "_" := by
  decide

/-! ## Content Transformer lemmas -/

theorem collapseAux_cons_pos {a : String} {t : List String} {p : Bool}
    (h : (isBlankLine a && p) = true) :
    collapseAux p (a :: t) = collapseAux (isBlankLine a) t := by
  conv_lhs => unfold collapseAux
  rw [if_pos h]

theorem collapseAux_cons_neg {a : String} {t : List String} {p : Bool}
    (h : ¬(isBlankLine a && p) = true) :
    collapseAux p (a :: t) = a :: collapseAux (isBlankLine a) t := by
  conv_lhs => unfold collapseAux
  rw [if_neg h]

theorem collapseAux_head_true {ls : List String} :
    ∀ l, (collapseAux true ls).head? = some l → isBlankLine l = false := by
  induction ls with
  | nil => intro l h; simp [collapseAux] at h
  | cons a t ih =>
    intro l h
    by_cases hb : isBlankLine a
    · rw [collapseAux_cons_pos (by rw [hb]; rfl), hb] at h
      exact ih l h
    · rw [collapseAux_cons_neg (by rw [Bool.eq_false_iff.mpr hb]; simp)] at h
      simp only [List.head?_cons, Option.some.injEq] at h
      rw [← h]
      exact Bool.eq_false_iff.mpr hb

theorem noTwoBlanks_cons {a : String} {xs : List String} :
    noTwoBlanks (a :: xs) = true ↔
      ((∀ x, xs.head? = some x → (isBlankLine a && isBlankLine x) = false)
        ∧ noTwoBlanks xs = true) := by
  cases xs with
  | nil => simp [noTwoBlanks]
  | cons b t =>
    have he : noTwoBlanks (a :: b :: t) = (!(isBlankLine a && isBlankLine b) && noTwoBlanks (b :: t)) := rfl
    rw [he]
    constructor
    · intro h
      simp only [Bool.and_eq_true, Bool.not_eq_true'] at h
      refine ⟨fun x hx => ?_, h.2⟩
      simp only [List.head?_cons, Option.some.injEq] at hx
      rw [← hx]
      exact h.1
    · intro ⟨h1, h2⟩
      simp only [Bool.and_eq_true, Bool.not_eq_true']
      exact ⟨h1 b rfl, h2⟩

theorem collapseAux_noTwo (ls : List String) : ∀ (prevBlank : Bool),
    noTwoBlanks (collapseAux prevBlank ls) = true := by
  induction ls with
  | nil => intro prevBlank; rfl
  | cons a t ih =>
    intro prevBlank
    by_cases hcond : (isBlankLine a && prevBlank) = true
    · rw [collapseAux_cons_pos hcond]
      exact ih _
    · rw [collapseAux_cons_neg hcond]
      rw [noTwoBlanks_cons]
      refine ⟨?_, ih _⟩
      intro x hx
      by_cases hb : isBlankLine a
      · have hx2 : (collapseAux true t).head? = some x := by rwa [hb] at hx
        rw [hb, collapseAux_head_true x hx2]
        rfl
      · rw [Bool.eq_false_iff.mpr hb]
        rfl

theorem collapseAux_filter (ls : List String) : ∀ (prevBlank : Bool),
    (collapseAux prevBlank ls).filter (fun l => !(isBlankLine l))
      = ls.filter (fun l => !(isBlankLine l)) := by
  induction ls with
  | nil => intro prevBlank; rfl
  | cons a t ih =>
    intro prevBlank
    by_cases hcond : (isBlankLine a && prevBlank) = true
    · rw [collapseAux_cons_pos hcond]
      have hb : isBlankLine a = true := by
        simp only [Bool.and_eq_true] at hcond
        exact hcond.1
      rw [ih _, List.filter_cons, if_neg (by simp [hb])]
    · rw [collapseAux_cons_neg hcond]
      by_cases hb : isBlankLine a
      · rw [List.filter_cons, List.filter_cons, if_neg (by simp [hb]), if_neg (by simp [hb])]
        exact ih _
      · rw [List.filter_cons, List.filter_cons,
            if_pos (by simp [Bool.eq_false_iff.mpr hb]),
            if_pos (by simp [Bool.eq_false_iff.mpr hb]), ih _]

theorem collapseAux_sublist (ls : List String) : ∀ (prevBlank : Bool),
    List.Sublist (collapseAux prevBlank ls) ls := by
  induction ls with
  | nil => intro prevBlank; exact List.Sublist.refl _
  | cons a t ih =>
    intro prevBlank
    by_cases hcond : (isBlankLine a && prevBlank) = true
    · rw [collapseAux_cons_pos hcond]
      exact List.Sublist.cons a (ih _)
    · rw [collapseAux_cons_neg hcond]
      exact List.Sublist.cons₂ a (ih _)

/-- Claim C7 (confirmed).  The blank-line collapsing pass (lines 203-210)
never leaves two consecutive blank lines, passes every non-blank line
through unchanged and in order (the non-blank sublists coincide), and
emits a subsequence of its input (so the only change is dropped blank
lines). -/
theorem collapseBlanks_spec (ls : List String) :
    noTwoBlanks (collapseBlanks ls) = true
    ∧ (collapseBlanks ls).filter (fun l => !(isBlankLine l))
        = ls.filter (fun l => !(isBlankLine l))
    ∧ List.Sublist (collapseBlanks ls) ls :=
  ⟨collapseAux_noTwo ls false, collapseAux_filter ls false, collapseAux_sublist ls false⟩

/-! ## Duplicate-title strip lemmas -/

theorem dropTitleLoop_some {metadata : List (String × String)} {t : String}
    (ht : metadata.lookup "title" = some t) : ∀ (ls : List String),
    dropTitleLoop metadata ls = .ok (ls.dropWhile (dropPred t)) := by
  intro ls
  induction ls with
  | nil => rfl
  | cons l rest ih =>
    unfold dropTitleLoop
    rw [List.dropWhile_cons]
    by_cases hb : (pyStripS l == "") = true
    · rw [if_pos hb, ih]
      rw [if_pos (by unfold dropPred; rw [hb]; rfl)]
    · rw [if_neg hb, ht]
      try dsimp only
      by_cases hm : (pyStartsWith (pyStripS l) ("# " ++ t) || (pyStripS l == t)) = true
      · rw [if_pos hm, ih, if_pos (by unfold dropPred; rw [Bool.eq_false_iff.mpr hb]; simpa using hm)]
      · rw [if_neg hm, if_neg (by
          unfold dropPred
          rw [Bool.eq_false_iff.mpr hb]
          simpa using hm)]

/-- Claim C8 (confirmed).  When the cleaned metadata retains a `title`
entry `t`, the leading-line loop (lines 195-201) drops exactly the
longest prefix of lines that are blank, start with `'# ' + t`, or equal
`t`; consequently the first surviving line (if any) satisfies none of
those — in particular a leading heading identical to the resolved title
is gone. -/
theorem dropTitleLoop_spec (metadata : List (String × String)) (t : String)
    (ht : metadata.lookup "title" = some t) (ls : List String) :
    dropTitleLoop metadata ls = .ok (ls.dropWhile (dropPred t))
    ∧ ∀ l, (ls.dropWhile (dropPred t)).head? = some l → dropPred t l = false :=
  ⟨dropTitleLoop_some ht ls, fun _ h => head?_dropWhile_false h⟩

/-- Claim C8 witness: with title `T`, the body `["# T", "", "Body"]`
loses its duplicate heading and the blank line under it. -/
theorem dropTitleLoop_spec_witness :
    dropTitleLoop [("title", "T")] ["# T", "", "Body"] = .ok ["Body"] := by
  have h := (dropTitleLoop_spec [("title", "T")] "T" rfl ["# T", "", "Body"]).1
  rw [h]
  rfl

/-! ## Metadata Composer lemmas -/

theorem cleanMetadata_eq_filterMap (raw : List (String × PyVal)) :
    cleanMetadata raw = composeAmendedC6 raw := by
  induction raw with
  | nil => rfl
  | cons kv rest ih =>
    unfold cleanMetadata composeAmendedC6 at ih ⊢
    rw [List.filter_cons, List.filterMap_cons]
    by_cases ht : pyTruthy kv.2
    · rw [if_pos ht, if_pos ht, List.map_cons, ih]
    · rw [if_neg ht, if_neg (by simpa using ht), ih]

theorem cleanMetadata_lookup_none {raw : List (String × PyVal)} {k : String}
    (h : ∀ kv ∈ raw, kv.1 = k → pyTruthy kv.2 = false) :
    (cleanMetadata raw).lookup k = Option.none := by
  induction raw with
  | nil => rfl
  | cons kv rest ih =>
    unfold cleanMetadata at ih ⊢
    rw [List.filter_cons]
    by_cases ht : pyTruthy kv.2
    · rw [if_pos ht, List.map_cons]
      have hk : kv.1 ≠ k := fun he => by
        rw [h kv (by simp) he] at ht
        exact absurd ht (by simp)
      have hbe : (k == kv.1) = false := by
        refine Bool.eq_false_iff.mpr fun hb => ?_
        exact hk (beq_iff_eq.mp hb).symm
      rw [List.lookup_cons, hbe]
      exact ih fun kv2 h2 => h kv2 (by simp [h2])
    · rw [if_neg ht]
      exact ih fun kv2 h2 => h kv2 (by simp [h2])

/-- Claim C6 counterexample.  For an article record that has a `sys_id`
but no `view_count`, `views` defaults to the integer 0 (line 178); the
cleaning comprehension filters on Python truthiness *before*
stringifying (line 186), so 0 is falsy and the `views` field is
*dropped* — while the claim's own reading (`composeSpecC6`, integer 0
"retained as a non-empty stringified value") would keep `views: "0"`. -/
theorem metadata_views_dropped :
    (mkMetadataRaw (.dict [("sys_id", PyVal.str "a1")]) "T" ⟨"Au", .str "u1"⟩).map cleanMetadata
      = .ok [("title", "T"), ("author", "Au"), ("author_sys_id", "u1"), ("sys_id", "a1")]
    ∧ (mkMetadataRaw (.dict [("sys_id", PyVal.str "a1")]) "T" ⟨"Au", .str "u1"⟩).map composeSpecC6
      = .ok [("title", "T"), ("author", "Au"), ("author_sys_id", "u1"),
             ("views", "0"), ("sys_id", "a1")] :=
  ⟨rfl, rfl⟩

/-- Claim C6 (corrected/amended).  For every article record (a dict
`es`), resolved title and author, the raw metadata has exactly the ten
claimed fields in the claimed order, and the cleaning step keeps exactly
the fields whose source value is *truthy* (each stringified and
trimmed) — not the "non-empty/present" fields of the original claim: in
particular when `view_count` is absent the defaulted `views` value 0 is
falsy and the frontmatter has no `views` field at all. -/
theorem metadata_amended (es : List (String × PyVal)) (t : String) (d : UserDetails) :
    ∃ raw, mkMetadataRaw (.dict es) t d = .ok raw
    ∧ raw.map Prod.fst = ["title", "author", "author_sys_id", "created_date",
        "updated_date", "views", "rating", "knowledge_base", "category", "sys_id"]
    ∧ cleanMetadata raw = composeAmendedC6 raw
    ∧ (es.lookup "view_count" = Option.none →
        (cleanMetadata raw).lookup "views" = Option.none) := by
  refine ⟨[("title", .str t), ("author", .str d.name), ("author_sys_id", d.sys_id),
    ("created_date", (es.lookup "sys_created_on").getD (.str "")),
    ("updated_date", (es.lookup "sys_updated_on").getD (.str "")),
    ("views", (es.lookup "view_count").getD (.int 0)),
    ("rating", (es.lookup "rating").getD (.str "")),
    ("knowledge_base", (es.lookup "kb_knowledge_base.title").getD (.str "")),
    ("category", (es.lookup "kb_category.label").getD (.str "")),
    ("sys_id", (es.lookup "sys_id").getD (.str ""))],
    rfl, rfl, cleanMetadata_eq_filterMap _, ?_⟩
  intro hvc
  refine cleanMetadata_lookup_none ?_
  intro kv hkv hk
  simp only [List.mem_cons, List.not_mem_nil, or_false] at hkv
  rcases hkv with rfl|rfl|rfl|rfl|rfl|rfl|rfl|rfl|rfl|rfl
  · simp at hk
  · simp at hk
  · simp at hk
  · simp at hk
  · simp at hk
  · rw [hvc]
    rfl
  · simp at hk
  · simp at hk
  · simp at hk
  · simp at hk

/-- Claim C6 witness: a record with a `sys_id` and no `view_count`
composes successfully, and its frontmatter mapping has no `views`
entry. -/
theorem metadata_amended_witness :
    ∃ raw, mkMetadataRaw (.dict [("sys_id", PyVal.str "a1")]) "T" ⟨"Au", .str "u1"⟩ = .ok raw
    ∧ (cleanMetadata raw).lookup "views" = Option.none := by
  obtain ⟨raw, h1, h2, h3, h4⟩ := metadata_amended [("sys_id", PyVal.str "a1")] "T" ⟨"Au", .str "u1"⟩
  exact ⟨raw, h1, h4 rfl⟩

/-! ## Execution-monad reduction lemmas -/

theorem emBind_ok {α β : Type} {m : EM α} {f : α → EM β} {ctx : Ctx} {st st' : St} {a : α}
    (h : m ctx st = (.ok a, st')) : emBind m f ctx st = f a ctx st' := by
  unfold emBind
  rw [h]

theorem emBind_err {α β : Type} {m : EM α} {f : α → EM β} {ctx : Ctx} {st st' : St} {e : PyExc}
    (h : m ctx st = (.error e, st')) : emBind m f ctx st = (.error e, st') := by
  unfold emBind
  rw [h]

theorem liftE_app {α : Type} (r : PyResult α) (ctx : Ctx) (st : St) : liftE r ctx st = (r, st) :=
  rfl

theorem emCtx_app (ctx : Ctx) (st : St) : emCtx ctx st = (.ok ctx, st) := rfl

theorem emPrint_app (msg : String) (ctx : Ctx) (st : St) :
    emPrint msg ctx st = (.ok (), { st with effects := st.effects ++ [.print msg] }) := rfl

theorem make_requestM_err {url : String} {e : FetchErr} (ctx : Ctx) (st : St) :
    make_requestM url (.err e) ctx st
      = (.error (.systemExit 1), { st with effects := st.effects ++ (errPrints url e).map .print }) :=
  rfl

theorem make_requestM_ok {url : String} {v : PyVal} (ctx : Ctx) (st : St) :
    make_requestM url (.ok v) ctx st = (.ok v, st) := rfl

/-! ## Author resolution: the user-lookup code bug (claim C1) -/

/-- Claim C1 (code bug).  For any truthy author reference whose user
fetch fails (connection, timeout, HTTP, request or JSON error),
`make_request` prints its diagnostic and calls `sys.exit(1)`; the
raised `SystemExit` is *not* an `Exception`, so the
`except Exception` of `get_user_details` (line 152) does not absorb
it and the lookup aborts the export with exit status 1 — contradicting
the claim (and lines 152-153's own evident intent) that any fetch
failure yields the `Unknown` fallback.  The closed conjuncts evaluate a
whole run at the failing input: one article whose author lookup gets an
HTTP 500 makes the process exit 1 with nothing written. -/
theorem user_lookup_fetch_exits :
    (∀ (ctx : Ctx) (st : St) (v : PyVal) (e : FetchErr),
      pyTruthy v = true → ctx.userById (pyStr v) = .err e →
      (get_user_detailsM v ctx st).1 = .error (.systemExit 1))
    ∧ (mainRun ctxUserFail []).2 = 1
    ∧ (mainRun ctxUserFail []).1.all (fun eff => match eff with
        | .writeFile _ _ => false
        | _ => true) = true := by
  refine ⟨?_, by decide, by decide⟩
  intro ctx st v e hv hf
  unfold get_user_detailsM
  rw [hv]
  have hb : userLookupBody v ctx st
      = (.error (.systemExit 1),
         { st with effects := st.effects ++
             (errPrints (users_endpoint ++ "/" ++ pyStr v) e).map .print }) := by
    unfold userLookupBody
    rw [emBind_ok (emCtx_app ctx st)]
    rw [emBind_err (by rw [hf]; exact make_requestM_err ctx st)]
  rw [hb]
  rfl

/-- Claim C1 witness: the general statement applied to the concrete
reference `u1` in the failing context. -/
theorem user_lookup_fetch_exits_witness :
    (get_user_detailsM (.str "u1") ctxUserFail ⟨[], []⟩).1 = .error (.systemExit 1) :=
  user_lookup_fetch_exits.1 ctxUserFail ⟨[], []⟩ (.str "u1") (.httpErr 500) rfl rfl

/-! ## Per-article skip of records without sys_id (claim C9) -/

/-- Claim C9 (corrected/amended).  An article record whose `sys_id` is
absent or falsy is skipped by the bare `continue` of lines 293-295:
the iteration returns with the state (directories, effects — in
particular the printed output) completely unchanged, so nothing is
logged, and the loop over the remaining articles proceeds from exactly
the same state, unaffected. -/
theorem article_no_sysid_skipped (kbt kbf : String) (cats : List (String × PyVal))
    (article : PyVal) (rest : List PyVal) (ctx : Ctx) (st : St) (v : PyVal)
    (hv : pyGet article "sys_id" .none = .ok v) (ht : pyTruthy v = false) :
    processArticle kbt kbf cats article ctx st = (.ok (), st)
    ∧ emForM (processArticle kbt kbf cats) (article :: rest) ctx st
        = emForM (processArticle kbt kbf cats) rest ctx st := by
  have hbody : articleBody kbt kbf cats article ctx st = (.ok (), st) := by
    unfold articleBody
    rw [emBind_ok (by rw [liftE_app, hv])]
    try dsimp only
    rw [ht]
    rfl
  have hpa : processArticle kbt kbf cats article ctx st = (.ok (), st) := by
    unfold processArticle tryKeyError
    rw [hbody]
  refine ⟨hpa, ?_⟩
  show emBind (processArticle kbt kbf cats article)
      (fun _ => emForM (processArticle kbt kbf cats) rest) ctx st
    = emForM (processArticle kbt kbf cats) rest ctx st
  rw [emBind_ok hpa]

/-- Claim C9 counterexample to "logged": a concrete skip changes
*nothing* (no warning line is printed), and in a whole run whose first
article lacks `sys_id` the trace contains no skip warning while the
sibling article is still exported (one file written, exit 0). -/
theorem article_no_sysid_no_log :
    processArticle "HR" "articles/HR" [] (.dict [("title", PyVal.str "no id")]) ctxBase
        ⟨["articles", "articles/HR"], []⟩
      = (.ok (), ⟨["articles", "articles/HR"], []⟩)
    ∧ (mainRun ctxBadArt []).2 = 0
    ∧ ((mainRun ctxBadArt []).1.filter (fun e => match e with
        | .writeFile _ _ => true
        | _ => false)).length = 1
    ∧ (mainRun ctxBadArt []).1.all (fun e => match e with
        | .print m => !(pyStartsWith m "  Warning: Skipping article")
        | _ => true) = true :=
  ⟨rfl, by decide, by decide, by decide⟩

/-- Claim C9 witness: the amended statement at a concrete empty record. -/
theorem article_no_sysid_skipped_witness :
    processArticle "HR" "articles/HR" [] (.dict []) ctxBase ⟨[], []⟩ = (.ok (), ⟨[], []⟩) :=
  (article_no_sysid_skipped "HR" "articles/HR" [] (.dict []) [] ctxBase ⟨[], []⟩ .none rfl rfl).1

/-! ## Zero knowledge bases (claim C5) -/

/-- Claim C5 (corrected/amended).  When the knowledge-base list fetch
succeeds but yields no (truthy) knowledge bases, the run prints the
warning, writes no files, creates no knowledge-base or category
directories — every directory created is the base output folder, which
line 244 ensures exists *before* the fetch — and exits with status 0. -/
theorem no_kbs_warning (ctx : Ctx) (dirs0 : List String) (v rv : PyVal)
    (h1 : ctx.kbList = .ok v) (h2 : pyGet v "result" (.list []) = .ok rv)
    (h3 : pyTruthy rv = false) :
    (mainRun ctx dirs0).2 = 0
    ∧ Effect.print "Warning: No knowledge bases found" ∈ (mainRun ctx dirs0).1
    ∧ (∀ p c, Effect.writeFile p c ∉ (mainRun ctx dirs0).1)
    ∧ (∀ p, Effect.mkdir p ∈ (mainRun ctx dirs0).1 → p = output_folder) := by
  by_cases hd : dirs0.contains output_folder
  all_goals (
    unfold mainRun mainBody create_folder
    simp only [hd, if_true, if_false, emBind, emPrint, emCtx, liftE, make_requestM,
      h1, h2, h3, Bool.false_eq_true, Bool.true_eq_false]
    refine ⟨by trivial, by simp, ?_, ?_⟩
    · intro p c
      simp
    · intro p hp
      simp at hp
      try exact hp.1.symm
      try simp [hp])

/-- Claim C5 counterexample to "creates no directories": on a fresh
filesystem the zero-knowledge-bases run still creates the base output
folder (line 244 runs before the fetch). -/
theorem no_kbs_creates_dir :
    Effect.mkdir output_folder ∈ (mainRun ctxNoKBs []).1 ∧ (mainRun ctxNoKBs []).2 = 0 :=
  ⟨by decide, by decide⟩

/-- Claim C5 witness: the amended statement at the concrete
zero-knowledge-bases context. -/
theorem no_kbs_warning_witness :
    (mainRun ctxNoKBs []).2 = 0
    ∧ Effect.print "Warning: No knowledge bases found" ∈ (mainRun ctxNoKBs []).1
    ∧ (∀ p c, Effect.writeFile p c ∉ (mainRun ctxNoKBs []).1)
    ∧ (∀ p, Effect.mkdir p ∈ (mainRun ctxNoKBs []).1 → p = output_folder) :=
  no_kbs_warning ctxNoKBs [] (.dict [("result", .list [])]) (.list []) rfl rfl rfl

/-! ## Category record without sys_id (claim C10) -/

/-- Claim C10 (confirmed).  In any run that reaches the category fetch
(a truthy knowledge-base list and no filter) where building the
category lookup raises `KeyError('sys_id')` — which is what the
comprehension of line 266 does as soon as one category record lacks a
`sys_id` key — the whole run aborts: the `KeyError` crosses every loop
(none has started) and is caught only by the top-level
`except Exception`, which prints the diagnostic and exits with status
1 before any article file is written. -/
theorem bad_category_aborts (ctx : Ctx) (dirs0 : List String)
    (v rv : PyVal) (kbs : List PyVal) (cv crv : PyVal) (recs : List PyVal)
    (h1 : ctx.kbList = .ok v) (h2 : pyGet v "result" (.list []) = .ok rv)
    (h3 : pyTruthy rv = true) (h4 : pyIter rv = .ok kbs)
    (h5 : ctx.selected_kbs = [])
    (h6 : ctx.catList = .ok cv) (h7 : pyGet cv "result" (.list []) = .ok crv)
    (h8 : pyIter crv = .ok recs)
    (h9 : buildCategories recs = .error (.keyError "sys_id")) :
    (mainRun ctx dirs0).2 = 1
    ∧ (∀ p c, Effect.writeFile p c ∉ (mainRun ctx dirs0).1)
    ∧ Effect.print "\n✗ Error: An unexpected error occurred: 'sys_id'" ∈ (mainRun ctx dirs0).1 := by
  by_cases hd : dirs0.contains output_folder
  all_goals (
    unfold mainRun mainBody create_folder
    simp only [hd, if_true, if_false, emBind, emPure, emPrint, emCtx, liftE, make_requestM,
      h1, h2, h3, h4, h5, h6, h7, h8, h9, Bool.false_eq_true, Bool.true_eq_false,
      List.isEmpty_nil, bind, Except.bind]
    refine ⟨by trivial, ?_, by simp⟩
    intro p c
    simp)

/-- Claim C10 witness: the statement at the concrete context whose
category list holds one record with only a `label`. -/
theorem bad_category_aborts_witness :
    (mainRun ctxBadCat []).2 = 1
    ∧ (∀ p c, Effect.writeFile p c ∉ (mainRun ctxBadCat []).1)
    ∧ Effect.print "\n✗ Error: An unexpected error occurred: 'sys_id'" ∈ (mainRun ctxBadCat []).1 :=
  bad_category_aborts ctxBadCat [] (.dict [("result", .list [kbHR])]) (.list [kbHR]) [kbHR]
    (.dict [("result", .list [.dict [("label", .str "x")]])]) (.list [.dict [("label", .str "x")]])
    [.dict [("label", .str "x")]] rfl rfl rfl rfl rfl rfl rfl rfl rfl

theorem dropTitleLoop_lookup_none {metadata : List (String × String)}
    (h : metadata.lookup "title" = Option.none) : ∀ (ls : List String),
    dropTitleLoop metadata ls = .error (.keyError "title")
    ∨ dropTitleLoop metadata ls = .ok [] := by
  intro ls
  induction ls with
  | nil => exact Or.inr rfl
  | cons l rest ih =>
    unfold dropTitleLoop
    by_cases hb : (pyStripS l == "") = true
    · rw [if_pos hb]
      exact ih
    · rw [if_neg hb, h]
      exact Or.inl rfl

theorem resolveTitle_shape {a : PyVal} {t : String} (h : resolveTitleE a = .ok t) :
    ∃ x : List Char, t = String.mk (joinWords (pyWords x)) := by
  unfold resolveTitleE at h
  cases a with
  | dict es =>
    simp only [pyGet, bind, Except.bind] at h
    by_cases hsd : pyTruthy ((es.lookup "short_description").getD .none)
    · rw [if_pos hsd] at h
      cases htv : (es.lookup "short_description").getD .none with
      | str s =>
        rw [htv] at h
        simp only [pyStripVal, pure, Except.pure] at h
        exact ⟨(pyStripS s).toList, (Except.ok.injEq _ _ |>.mp h).symm⟩
      | int n => rw [htv] at h; simp [pyStripVal, pure, Except.pure] at h
      | none => rw [htv] at h; simp [pyStripVal, pure, Except.pure] at h
      | list vs => rw [htv] at h; simp [pyStripVal, pure, Except.pure] at h
      | dict es2 => rw [htv] at h; simp [pyStripVal, pure, Except.pure] at h
    · rw [if_neg hsd] at h
      cases htv : (es.lookup "title").getD (.str "") with
      | str s =>
        rw [htv] at h
        simp only [pyStripVal, pure, Except.pure] at h
        exact ⟨(pyStripS s).toList, (Except.ok.injEq _ _ |>.mp h).symm⟩
      | int n => rw [htv] at h; simp [pyStripVal, pure, Except.pure] at h
      | none => rw [htv] at h; simp [pyStripVal, pure, Except.pure] at h
      | list vs => rw [htv] at h; simp [pyStripVal, pure, Except.pure] at h
      | dict es2 => rw [htv] at h; simp [pyStripVal, pure, Except.pure] at h
  | str s => simp [pyGet, bind, Except.bind] at h
  | int n => simp [pyGet, bind, Except.bind] at h
  | none => simp [pyGet, bind, Except.bind] at h
  | list vs => simp [pyGet, bind, Except.bind] at h

theorem pyStripL_words_ne {x : List Char} (h : joinWords (pyWords x) ≠ []) :
    pyStripL (joinWords (pyWords x)) ≠ [] := by
  cases hws : pyWords x with
  | nil =>
    rw [hws] at h
    exact absurd rfl h
  | cons w rest =>
    have hword := @pyWordsAux_words x [] (by simp) w (by
      rw [show pyWordsAux x [] = pyWords x from rfl, hws]
      simp)
    obtain ⟨c, w', rfl⟩ : ∃ c w', w = c :: w' := by
      cases w with
      | nil => exact absurd rfl hword.1
      | cons c w' => exact ⟨c, w', rfl⟩
    have hc : isPyWS c = false := hword.2 c (by simp)
    obtain ⟨tail, hjt⟩ : ∃ tail, joinWords ((c :: w') :: rest) = c :: tail := by
      cases rest with
      | nil => exact ⟨w', rfl⟩
      | cons w2 rest2 => exact ⟨w' ++ ' ' :: joinWords (w2 :: rest2), rfl⟩
    rw [hjt]
    unfold pyStripL
    rw [List.dropWhile_cons, if_neg (by simp [hc])]
    intro hnil
    have h2 : (c :: tail).reverse.dropWhile isPyWS = [] := by
      have := congrArg List.reverse hnil
      simpa using this
    have h3 := List.dropWhile_eq_nil_iff.mp h2 c (by simp)
    rw [hc] at h3
    cases h3

theorem mkMetadataRaw_dict (es : List (String × PyVal)) (t : String) (d : UserDetails) :
    mkMetadataRaw (.dict es) t d = .ok (rawFields es t d) := rfl

theorem cleanMetadata_cons_pos {kv : String × PyVal} {rest : List (String × PyVal)}
    (h : pyTruthy kv.2 = true) :
    cleanMetadata (kv :: rest) = (kv.1, pyStripS (pyStr kv.2)) :: cleanMetadata rest := by
  unfold cleanMetadata
  rw [List.filter_cons, if_pos h, List.map_cons]

theorem format_empty_title {es : List (String × PyVal)} {md fp : String} {ctx : Ctx}
    {st st2 : St} {ar : PyVal} {d : UserDetails}
    (ht : resolveTitleE (.dict es) = .ok "")
    (har : authorRefE (.dict es) = .ok ar)
    (hd : get_user_detailsM ar ctx st = (.ok d, st2)) :
    (format_article_markdown (.dict es) md fp ctx st).1 = .error (.keyError "title") := by
  have hlook : (cleanMetadata (rawFields es "" d)).lookup "title" = Option.none := by
    refine cleanMetadata_lookup_none ?_
    intro kv hkv hk
    unfold rawFields at hkv
    simp only [List.mem_cons, List.not_mem_nil, or_false] at hkv
    rcases hkv with rfl|rfl|rfl|rfl|rfl|rfl|rfl|rfl|rfl|rfl
    · rfl
    · simp at hk
    · simp at hk
    · simp at hk
    · simp at hk
    · simp at hk
    · simp at hk
    · simp at hk
    · simp at hk
    · simp at hk
  unfold format_article_markdown
  rw [emBind_ok (by rw [liftE_app, ht])]
  try dsimp only
  rw [emBind_ok (by rw [liftE_app, har])]
  try dsimp only
  rw [emBind_ok hd]
  try dsimp only
  rw [emBind_ok (show liftE (mkMetadataRaw (.dict es) "" d) ctx st2
        = (.ok (rawFields es "" d), st2) from by rw [liftE_app, mkMetadataRaw_dict])]
  try dsimp only
  rcases dropTitleLoop_lookup_none hlook (splitLines md) with herr | hok
  · rw [emBind_err (by rw [liftE_app, herr])]
  · rw [emBind_ok (by rw [liftE_app, hok])]
    try dsimp only
    have hlt : lookupTitleE (cleanMetadata (rawFields es "" d)) = .error (.keyError "title") := by
      unfold lookupTitleE
      rw [hlook]
    rw [emBind_err (by rw [liftE_app, hlt])]

theorem format_nonempty_title {es : List (String × PyVal)} {md fp : String} {ctx : Ctx}
    {st st2 : St} {ar : PyVal} {d : UserDetails} {t : String}
    (ht : resolveTitleE (.dict es) = .ok t) (htn : t ≠ "")
    (har : authorRefE (.dict es) = .ok ar)
    (hd : get_user_detailsM ar ctx st = (.ok d, st2)) :
    (cleanMetadata (rawFields es t d)).head? = some ("title", pyStripS t)
    ∧ pyStripS t ≠ ""
    ∧ ∃ out st3, format_article_markdown (.dict es) md fp ctx st = (.ok out, st3) := by
  have hpt : pyTruthy (PyVal.str t) = true := by
    simp only [pyTruthy, Bool.not_eq_true']
    exact Bool.eq_false_iff.mpr (fun hb => htn (beq_iff_eq.mp hb))
  obtain ⟨restMD, hMD⟩ : ∃ restMD,
      cleanMetadata (rawFields es t d) = ("title", pyStripS t) :: restMD := by
    refine ⟨cleanMetadata ((rawFields es t d).tail), ?_⟩
    conv_lhs => rw [show rawFields es t d = ("title", PyVal.str t) :: (rawFields es t d).tail from rfl]
    exact cleanMetadata_cons_pos hpt
  have hlook : (cleanMetadata (rawFields es t d)).lookup "title" = some (pyStripS t) := by
    rw [hMD]
    rfl
  have hhead : (cleanMetadata (rawFields es t d)).head? = some ("title", pyStripS t) := by
    rw [hMD]
    rfl
  have hne : pyStripS t ≠ "" := by
    obtain ⟨x, rfl⟩ := resolveTitle_shape ht
    have hlne : joinWords (pyWords x) ≠ [] := fun hl => htn (by rw [hl])
    have hstr := pyStripL_words_ne hlne
    intro hse
    apply hstr
    have h2 := congrArg String.toList hse
    simpa [pyStripS] using h2
  refine ⟨hhead, hne,
    String.intercalate "\n"
      [String.intercalate "\n" (renderFrontmatter (cleanMetadata (rawFields es t d))), "",
       "# " ++ pyStripS t, "",
       pyStripS (String.intercalate "\n"
         (collapseBlanks ((splitLines md).dropWhile (dropPred (pyStripS t)))))],
    st2, ?_⟩
  unfold format_article_markdown
  rw [emBind_ok (by rw [liftE_app, ht])]
  try dsimp only
  rw [emBind_ok (by rw [liftE_app, har])]
  try dsimp only
  rw [emBind_ok hd]
  try dsimp only
  rw [emBind_ok (show liftE (mkMetadataRaw (.dict es) t d) ctx st2
        = (.ok (rawFields es t d), st2) from by rw [liftE_app, mkMetadataRaw_dict])]
  try dsimp only
  rw [emBind_ok (show liftE (dropTitleLoop (cleanMetadata (rawFields es t d)) (splitLines md)) ctx st2
        = (.ok ((splitLines md).dropWhile (dropPred (pyStripS t))), st2) from by
      rw [liftE_app, dropTitleLoop_some hlook])]
  try dsimp only
  rw [emBind_ok (show liftE (lookupTitleE (cleanMetadata (rawFields es t d))) ctx st2
        = (.ok (pyStripS t), st2) from by
      rw [liftE_app]
      unfold lookupTitleE
      rw [hlook])]
  rfl

/-- Claim C4 (corrected/amended).  The Metadata Composer's title
resolution (lines 163-165) takes `short_description` if truthy, else
the `title` field, else the *empty string* — there is no
`"Unnamed Article {sys_id}"` placeholder in the composer (that
placeholder exists only for the *filename*, lines 303-304).  Whenever
the resolved title is empty it is cleaned away from the metadata, and
composition *fails* with `KeyError('title')` (raised at line 198 or
216), to be caught by the per-article handler; when it is non-empty,
composition succeeds and the frontmatter's first field is the
non-empty trimmed title. -/
theorem format_title_resolution (es : List (String × PyVal)) (md fp : String)
    (ctx : Ctx) (st st2 : St) (t : String) (ar : PyVal) (d : UserDetails)
    (ht : resolveTitleE (.dict es) = .ok t)
    (har : authorRefE (.dict es) = .ok ar)
    (hd : get_user_detailsM ar ctx st = (.ok d, st2)) :
    (t = "" → (format_article_markdown (.dict es) md fp ctx st).1 = .error (.keyError "title"))
    ∧ (t ≠ "" → (cleanMetadata (rawFields es t d)).head? = some ("title", pyStripS t)
        ∧ pyStripS t ≠ ""
        ∧ ∃ out st3, format_article_markdown (.dict es) md fp ctx st = (.ok out, st3)) :=
  ⟨fun hte => format_empty_title (hte ▸ ht) har hd,
   fun htn => format_nonempty_title ht htn har hd⟩

/-- Claim C4 counterexample.  An article whose `short_description` is
absent and whose `title` is the empty string does *not* get a
placeholder title: composition raises `KeyError('title')` (the claim
says it always succeeds with a non-empty resolved title). -/
theorem format_empty_title_keyerror :
    (format_article_markdown
        (.dict [("sys_id", PyVal.str "a1"), ("title", PyVal.str ""),
                ("author", PyVal.dict [("value", PyVal.str "")])])
        "Body" "p" ctxBase ⟨[], []⟩).1 = .error (.keyError "title") := rfl

/-- Claim C4 witness: the amended statement at the article of the
end-to-end example, whose `short_description` is `"Leave Policy"`. -/
theorem format_title_resolution_witness :
    (cleanMetadata (rawFields
        [("sys_id", PyVal.str "a1"), ("short_description", PyVal.str "Leave Policy"),
         ("author", PyVal.dict [("value", PyVal.str "u1")]),
         ("text", PyVal.str "<p>Leave Policy</p><p>Text</p>")]
        "Leave Policy" ⟨"A B", PyVal.str "u1"⟩)).head?
      = some ("title", pyStripS "Leave Policy")
    ∧ pyStripS "Leave Policy" ≠ ""
    ∧ ∃ out st3, format_article_markdown
        (.dict [("sys_id", PyVal.str "a1"), ("short_description", PyVal.str "Leave Policy"),
                ("author", PyVal.dict [("value", PyVal.str "u1")]),
                ("text", PyVal.str "<p>Leave Policy</p><p>Text</p>")])
        "Leave Policy\n\nText" "p" ctxBase ⟨[], []⟩ = (.ok out, st3) :=
  (format_title_resolution
    [("sys_id", PyVal.str "a1"), ("short_description", PyVal.str "Leave Policy"),
     ("author", PyVal.dict [("value", PyVal.str "u1")]),
     ("text", PyVal.str "<p>Leave Policy</p><p>Text</p>")]
    "Leave Policy\n\nText" "p" ctxBase ⟨[], []⟩ ⟨[], []⟩ "Leave Policy" (PyVal.str "u1")
    ⟨"A B", PyVal.str "u1"⟩ rfl rfl rfl).2 (by decide)
